import Mathlib

/-!
Shallow embedding of `samples/DocumentManagement/Program.py` from the
azure-documentdb-python repository, together with theorems checking the
natural-language specification of the sample against the code.

The sample is a linear script driving an external document-database client.
Python dictionaries become association lists over a JSON-like value type,
exceptions become an explicit error type threaded through an `Except`-style
result, console output and client calls become an explicit event trace, and
the external client (an opaque SDK collaborator) is a record of operations
over an abstract state type, instantiated below by a mock service that
follows the interface contract described in the specification.
-/

/-- JSON-like values of the Python dictionaries built by the sample.
Numeric literals of the source (Python floats) are carried as exact decimals
`dec m k`, denoting m times 10 to the minus k; no claim compares numerics. -/
inductive Val where
  | str (s : String)
  | int (n : Int)
  | dec (mantissa : Int) (shift : Nat)
  | arr (elems : List Val)
  | obj (fields : List (String × Val))

/-- Python dictionary lookup on an association list: first binding wins
(dictionaries built by the sample have unique keys). -/
def dictGet? : List (String × Val) → String → Option Val
  | [], _ => none
  | (k0, v0) :: rest, k => if k0 = k then some v0 else dictGet? rest k

/-- Python dictionary assignment `d[k] = v`: updates the existing binding in
place (keeping its position) or appends a new binding at the end, exactly the
observable behaviour of an insertion-ordered Python dict. -/
def dictSet : List (String × Val) → String → Val → List (String × Val)
  | [], k, v => [(k, v)]
  | (k0, v0) :: rest, k, v =>
    if k0 = k then (k, v) :: rest else (k0, v0) :: dictSet rest k v

/-- The Python exceptions that the sample can raise or observe.  The service
SDK raises `documentDBError` carrying a status code; `httpFailure` is its
subclass raised by the sample itself; the remaining constructors are the
relevant builtin exceptions.  All of them derive from Python `Exception`. -/
inductive PyErr where
  | documentDBError (status : Nat)
  | httpFailure (status : Nat) (message : String)
  | indexError
  | keyError (key : String)
  | typeError (message : String)
  | attributeError (message : String)
deriving DecidableEq, Repr

/-- Membership in the `errors.DocumentDBError` exception class: the class
itself or its subclass `errors.HTTPFailure` (what `except errors.DocumentDBError`
catches). -/
def PyErr.isDocumentDBError : PyErr → Bool
  | .documentDBError _ => true
  | .httpFailure _ _ => true
  | _ => false

/-- Membership in the `errors.HTTPFailure` exception class (what
`except errors.HTTPFailure` in run_sample catches). -/
def PyErr.isHTTPFailure : PyErr → Bool
  | .httpFailure _ _ => true
  | _ => false

/-- The `status_code` attribute of a caught service error.  Only read under
an `except errors.DocumentDBError` guard, where it is always present; the
default 0 for other constructors is unreachable in the embedded code. -/
def PyErr.status_code : PyErr → Nat
  | .documentDBError c => c
  | .httpFailure c _ => c
  | _ => 0

/-- The `message` attribute read by run_sample's handler; only read on
`HTTPFailure`, where the sample always leaves it empty. -/
def PyErr.message : PyErr → String
  | .httpFailure _ m => m
  | _ => ""

/-- Rendering of `e.args` used by the top-level handler's log line. -/
def PyErr.argsStr : PyErr → String
  | .documentDBError c => "(" ++ toString c ++ ",)"
  | .httpFailure c m => "(" ++ toString c ++ ", " ++ m ++ ")"
  | .indexError => "(list index out of range,)"
  | .keyError k => "(" ++ k ++ ",)"
  | .typeError m => "(" ++ m ++ ",)"
  | .attributeError m => "(" ++ m ++ ",)"

/-- Observable events of a run: console output, a call into the external
client (operation name and arguments), and — for checking the cleanup
claim — the closing of the client handle. -/
inductive Event where
  | print (line : String)
  | call (op : String) (args : List Val)
  | close

/-- Result of running an embedded statement: final external-service state,
the emitted events in order, and the value or the propagating exception. -/
structure RunRes (σ : Type) (α : Type) where
  state : σ
  events : List Event
  result : Except PyErr α

/-- The effect monad of the embedding: state of the external service,
an event trace, and Python exceptions. -/
def M (σ : Type) (α : Type) : Type := σ → RunRes σ α

/-- Sequencing of embedded statements: events concatenate, an exception
aborts the continuation. -/
def mBind {σ α β : Type} (x : M σ α) (f : α → M σ β) : M σ β := fun s =>
  match x s with
  | ⟨s1, ev1, .ok a⟩ =>
    match f a s1 with
    | ⟨s2, ev2, r⟩ => ⟨s2, ev1 ++ ev2, r⟩
  | ⟨s1, ev1, .error e⟩ => ⟨s1, ev1, .error e⟩

def mPure {σ α : Type} (a : α) : M σ α := fun s => ⟨s, [], .ok a⟩

instance : Monad (M σ) where
  pure := mPure
  bind := mBind

theorem bind_eq {σ α β : Type} (x : M σ α) (f : α → M σ β) : x >>= f = mBind x f := rfl

theorem pure_eq {σ α : Type} (a : α) : (pure a : M σ α) = mPure a := rfl

/-- Python `print`: emits one line of console output. -/
def pyPrint {σ : Type} (line : String) : M σ Unit := fun s => ⟨s, [Event.print line], .ok ()⟩

/-- Python `raise`. -/
def pyRaise {σ α : Type} (e : PyErr) : M σ α := fun s => ⟨s, [], .error e⟩

/-- Embeds a pure, possibly failing evaluation into the monad. -/
def liftExc {σ α : Type} (x : Except PyErr α) : M σ α := fun s => ⟨s, [], x⟩

/-- A call into the external client: records the call event; a service
failure surfaces as a `DocumentDBError` carrying the reported status code. -/
def invoke {σ β : Type} (name : String) (args : List Val) (f : σ → σ × Except Nat β) : M σ β :=
  fun s =>
    match f s with
    | (s1, .ok v) => ⟨s1, [Event.call name args], .ok v⟩
    | (s1, .error code) => ⟨s1, [Event.call name args], .error (.documentDBError code)⟩

/-- Python `try ... except E ... ` where `catches` decides membership in the
caught exception class; uncaught exceptions propagate. -/
def pyTryExcept {σ α : Type} (x : M σ α) (catches : PyErr → Bool) (handler : PyErr → M σ α) :
    M σ α := fun s =>
  match x s with
  | ⟨s1, ev, .ok a⟩ => ⟨s1, ev, .ok a⟩
  | ⟨s1, ev, .error e⟩ =>
    if catches e then
      match handler e s1 with
      | ⟨s2, ev2, r⟩ => ⟨s2, ev ++ ev2, r⟩
    else ⟨s1, ev, .error e⟩

/-- Python `try ... except E ... finally ...`: the finally block runs on
every path; an exception escaping the finally block replaces the result. -/
def pyTryExceptFinally {σ α : Type} (x : M σ α) (catches : PyErr → Bool)
    (handler : PyErr → M σ α) (fin : M σ Unit) : M σ α := fun s =>
  match pyTryExcept x catches handler s with
  | ⟨s1, ev, r⟩ =>
    match fin s1 with
    | ⟨s2, ev2, .ok _⟩ => ⟨s2, ev ++ ev2, r⟩
    | ⟨s2, ev2, .error e2⟩ => ⟨s2, ev ++ ev2, .error e2⟩

/-- The body of `IDisposable.__exit__`: the source merely rebinds the local
variable `self` to `None`, which has no effect on the wrapped object — in
particular no `close`/cleanup method of the client is ever invoked, and the
returned `None` is falsy so exceptions propagate out of the `with` block. -/
def IDisposable_exit {σ : Type} : M σ Unit := mPure ()

/-- Python `with IDisposable(obj) as client: body` — `__enter__` hands the
wrapped object to the body, `__exit__` runs on every exit path (normal or
exceptional) and, being falsy, lets exceptions propagate. -/
def withIDisposable {σ α : Type} (body : M σ α) : M σ α := fun s =>
  match body s with
  | ⟨s1, ev, r⟩ =>
    match IDisposable_exit s1 with
    | ⟨s2, ev2, _⟩ => ⟨s2, ev ++ ev2, r⟩

/-- Modelled from the spec: the database id configuration input, supplied by
the external `config` module (out of scope); fixed as a representative value. -/
def DATABASE_ID : String := "SalesDB"

/-- Modelled from the spec: the collection id configuration input, supplied
by the external `config` module (out of scope). -/
def COLLECTION_ID : String := "SalesOrders"

def database_link : String := "dbs/" ++ DATABASE_ID

def collection_link : String := database_link ++ "/colls/" ++ COLLECTION_ID

def partition_key : String := "AccountNumber"

/-- A single-quote character, written via its code point. -/
def sglq : String := "\x27"

/-- The filter query string built by QueryDocuments:
`SELECT * FROM root r WHERE r.account_number=` followed by the account
number in single quotes. -/
def queryFor (account_number : String) : String :=
  "SELECT * FROM root r WHERE r.account_number=" ++ sglq ++ account_number ++ sglq

/-- The argument `{"id": DATABASE_ID}` of the CreateDatabase call. -/
def dbBody : Val := .obj [("id", .str DATABASE_ID)]

/-- The options dictionary `{'maxItemCount': 10}` of the ReadDocuments call. -/
def readAllOptions : Val := .obj [("maxItemCount", .int 10)]

/-- The collection definition dictionary built by Initialize, with the
partition-key path and range-indexing policy; the SDK enumeration members
`IndexKind.Range` and `DataType.Number` are carried as their names. -/
def collection_definition : Val :=
  .obj [("id", .str COLLECTION_ID),
        ("partitionKey", .obj [("paths", .arr [.str "/account_number"])]),
        ("indexingPolicy", .obj [("includedPaths", .arr [
          .obj [("path", .str "/*"),
                ("indexes", .arr [.obj [("kind", .str "Range"),
                                        ("dataType", .str "Number")]])]])])]

/-- Python subscription `d[k]` on a dictionary value: `KeyError` when the
key is absent, `TypeError` when the value is not a dictionary. -/
def pyGetItemV : Val → String → Except PyErr Val
  | .obj f, k =>
    match dictGet? f k with
    | some v => .ok v
    | none => .error (.keyError k)
  | _, k => .error (.typeError ("object is not subscriptable: " ++ k))

/-- Python assignment `d[k] = v` on a dictionary value (in-place dictionary
mutation); `TypeError` when the value is not a dictionary. -/
def pySetItemV : Val → String → Val → Except PyErr Val
  | .obj f, k, v => .ok (.obj (dictSet f k v))
  | _, k, _ => .error (.typeError ("object does not support item assignment: " ++ k))

/-- Python `d.get(k)` on a dictionary value: `None` when absent (used by
ReadDocuments on documents the client yields). -/
def vGet : Val → String → Option Val
  | .obj f, k => dictGet? f k
  | _, _ => none

/-- String concatenation with a value, as in `link + order['id']`:
`TypeError` unless the value is a string. -/
def asPyStr : Val → Except PyErr String
  | .str s => .ok s
  | _ => .error (.typeError "can only concatenate str to str")

/-- The rendering `'{0}'.format(v)` of a value in the sample's console
output; dictionaries and lists are abbreviated (no claim inspects them). -/
def pyStrV : Val → String
  | .str s => s
  | .int n => toString n
  | .dec m k => toString m ++ "e-" ++ toString k
  | .arr _ => "[...]"
  | .obj _ => "\x7b...\x7d"

/-- The rendering of an optional value, `None` when absent. -/
def pyStrOptV : Option Val → String
  | some v => pyStrV v
  | none => "None"

/-- Modelled from the spec: the standard-library date rendering
`datetime.date(y, m, d).strftime('%c')` (out of scope, locale dependent),
abstracted as an injective textual rendering of the date. -/
def dateStrC (y m d : Nat) : String :=
  toString y ++ "-" ++ toString m ++ "-" ++ toString d ++ " 00:00:00"

/-- Evaluation of the attribute access `datetime.min` in GetSalesOrder: the
`datetime` MODULE has no attribute `min` (`min` is an attribute of the
classes `datetime.date` and `datetime.datetime`), so the lookup raises
`AttributeError` before `.strftime` is ever reached. -/
def datetimeMinStrftimeC : Except PyErr Val :=
  .error (.attributeError "module datetime has no attribute min")

/-- The external client handle, abstracted over the service state: the
operations the sample invokes, each returning either a value or a service
status code, plus the last response's request-charge header. -/
structure ClientOps (σ : Type) where
  CreateDatabase : σ → Val → σ × Except Nat Val
  CreateCollection : σ → String → Val → σ × Except Nat Val
  CreateDocument : σ → String → Val → σ × Except Nat Val
  ReadDocument : σ → String → Val → σ × Except Nat Val
  ReadDocuments : σ → String → Val → σ × Except Nat (List Val)
  QueryDocuments : σ → String → Val → σ × Except Nat (List Val)
  ReplaceDocument : σ → String → Val → σ × Except Nat Val
  requestCharge : σ → String

/-- Reads `client.last_response_headers.get('x-ms-request-charge')`. -/
def getCharge {σ : Type} (ops : ClientOps σ) : M σ String := fun s =>
  ⟨s, [], .ok (ops.requestCharge s)⟩

namespace DocumentManagement

/-- Embedding of `DocumentManagement.Initialize`: create the database and
the partitioned, indexed collection; a 409 conflict from either create call
is tolerated, any other `DocumentDBError` status s is re-raised as
`HTTPFailure(s)`. -/
def Initialize {σ : Type} (ops : ClientOps σ) : M σ Unit := do
  pyPrint "Initializing database for samples"
  pyTryExcept
    (do let _ ← invoke "CreateDatabase" [dbBody] (fun s => ops.CreateDatabase s dbBody)
        pyPrint ("Database with id " ++ sglq ++ DATABASE_ID ++ sglq ++ " created"))
    PyErr.isDocumentDBError
    (fun e =>
      if e.status_code == 409 then mPure ()
      else pyRaise (.httpFailure e.status_code ""))
  pyTryExcept
    (do let _ ← invoke "CreateCollection" [.str database_link, collection_definition]
          (fun s => ops.CreateCollection s database_link collection_definition)
        pyPrint ("Collection with id " ++ sglq ++ COLLECTION_ID ++ sglq ++ " created"))
    PyErr.isDocumentDBError
    (fun e =>
      if e.status_code == 409 then
        pyPrint ("Collection with id " ++ sglq ++ COLLECTION_ID ++ sglq ++ " was found")
      else pyRaise (.httpFailure e.status_code ""))

/-- Embedding of `DocumentManagement.GetSalesOrder`: the V1 sales order.
Building the dictionary evaluates `datetime.min.strftime('%c')` for the
`shipped_date` entry, which raises `AttributeError`, so the construction
never completes (the surrounding entries are pure literals). -/
def GetSalesOrder (document_id : String) : Except PyErr Val := do
  let shipped ← datetimeMinStrftimeC
  .ok (.obj [("id", .str document_id),
             ("account_number", .str "Account1"),
             ("purchase_order_number", .str "PO18009186470"),
             ("order_date", .str (dateStrC 2005 1 10)),
             ("shipped_date", shipped),
             ("subtotal", .dec 4194589 4),
             ("tax_amount", .dec 125838 4),
             ("freight", .dec 4723108 4),
             ("total_due", .dec 985018 3),
             ("items", .arr [.obj [("order_qty", .int 1),
                                   ("product_id", .int 100),
                                   ("unit_price", .dec 4184589 4),
                                   ("line_price", .dec 4184589 4)]]),
             ("ttl", .int (60 * 60 * 24 * 30))])

/-- Embedding of `DocumentManagement.GetSalesOrderV2`: the V2 sales order
with the evolved schema (all entries are pure literals). -/
def GetSalesOrderV2 (document_id : String) : Val :=
  .obj [("id", .str document_id),
        ("account_number", .str "Account2"),
        ("purchase_order_number", .str "PO15428132599"),
        ("order_date", .str (dateStrC 2005 7 11)),
        ("due_date", .str (dateStrC 2005 7 21)),
        ("shipped_date", .str (dateStrC 2005 7 15)),
        ("subtotal", .dec 61070820 4),
        ("tax_amount", .dec 5861203 4),
        ("freight", .dec 1831626 4),
        ("discount_amt", .dec 1982872 3),
        ("total_due", .dec 48933929 4),
        ("items", .arr [.obj [("order_qty", .int 3),
                              ("product_code", .str "A-123"),
                              ("product_name", .str "Product 1"),
                              ("currency_symbol", .str "$"),
                              ("currecny_code", .str "USD"),
                              ("unit_price", .dec 171 1),
                              ("line_price", .dec 57 1)]]),
        ("ttl", .int (60 * 60 * 24 * 30))]

/-- Embedding of `DocumentManagement.CreateDocuments`: build the two sample
orders and submit each to the client's CreateDocument operation. -/
def CreateDocuments {σ : Type} (ops : ClientOps σ) : M σ Unit := do
  pyPrint "\n1.1 - Creating Documents"
  let sales_order ← liftExc (GetSalesOrder "SalesOrder1")
  let _ ← invoke "CreateDocument" [.str collection_link, sales_order]
    (fun s => ops.CreateDocument s collection_link sales_order)
  let sales_order2 := GetSalesOrderV2 "SalesOrder2"
  let _ ← invoke "CreateDocument" [.str collection_link, sales_order2]
    (fun s => ops.CreateDocument s collection_link sales_order2)
  mPure ()

/-- Embedding of `DocumentManagement.ReadDocument`: fetch one document by
its link with a partition-key option and print the request charge. -/
def ReadDocument {σ : Type} (ops : ClientOps σ) (doc_id account_number : String) : M σ Unit := do
  pyPrint "\n1.2 - Reading Document by Id\n"
  let options := Val.obj [("partitionKey", .str account_number)]
  let document_link := collection_link ++ "/docs/" ++ doc_id
  let _ ← invoke "ReadDocument" [.str document_link, options]
    (fun s => ops.ReadDocument s document_link options)
  pyPrint ("Document read by Id " ++ doc_id)
  let charge ← getCharge ops
  pyPrint ("Request Units Charge for reading a Document by Id " ++ charge)

/-- The `for doc in documentlist` loop of ReadDocuments: print the id of
each yielded document in order. -/
def printIds {σ : Type} : List Val → M σ Unit
  | [] => mPure ()
  | doc :: rest => do
    pyPrint ("Document Id: " ++ pyStrOptV (vGet doc "id"))
    printIds rest

/-- Embedding of `DocumentManagement.ReadDocuments`: materialise the lazy
sequence the client yields under the maxItemCount-10 hint, then print the
id of every document. -/
def ReadDocuments {σ : Type} (ops : ClientOps σ) : M σ Unit := do
  pyPrint "\n1.3 - Reading all documents in a collection\n"
  let documentlist ← invoke "ReadDocuments" [.str collection_link, readAllOptions]
    (fun s => ops.ReadDocuments s collection_link readAllOptions)
  printIds documentlist

/-- Embedding of `DocumentManagement.QueryDocuments`: issue the
account-number filter query, then return `documentlist[0]` — which raises
`IndexError` when the materialised result list is empty. -/
def QueryDocuments {σ : Type} (ops : ClientOps σ) (account_number : String) : M σ Val := do
  pyPrint "\n1.4 - Querying for a document using its AccountNumber property"
  let qdict := Val.obj [("query", .str (queryFor account_number))]
  let documentlist ← invoke "QueryDocuments" [.str collection_link, qdict]
    (fun s => ops.QueryDocuments s collection_link qdict)
  pyPrint ("Found document with account_number: " ++ account_number)
  match documentlist with
  | [] => pyRaise .indexError
  | d :: _ => mPure d

/-- Embedding of `DocumentManagement.ReplaceDocument`: overwrite the
`shipped_date` entry of the caller's order dictionary in place with the
current time, submit the whole mutated dictionary as a replacement, and
print the request charge and the result's shipped date.  The function has
no return statement: its value is Python `None`. -/
def ReplaceDocument {σ : Type} (ops : ClientOps σ) (order : Val) (now : String) : M σ Unit := do
  pyPrint "\n1.5 - Replacing a document using its Id"
  let order2 ← liftExc (pySetItemV order "shipped_date" (.str now))
  let oid ← liftExc (pyGetItemV order2 "id")
  let oidStr ← liftExc (asPyStr oid)
  let document_link := collection_link ++ "/docs/" ++ oidStr
  let result ← invoke "ReplaceDocument" [.str document_link, order2]
    (fun s => ops.ReplaceDocument s document_link order2)
  let charge ← getCharge ops
  pyPrint ("Request charge of replace operation: " ++ charge)
  let sd ← liftExc (pyGetItemV result "shipped_date")
  pyPrint ("Shipped date of updated document: " ++ pyStrV sd)

end DocumentManagement

/-- Embedding of `run_sample`: the fixed operation sequence inside the
`with IDisposable(...)` scope and the `try/except HTTPFailure/finally`
block.  The CreateDocuments step is commented out in the source and hence
absent here; `now` stands for the external current-time string read by the
replace step. -/
def run_sample {σ : Type} (ops : ClientOps σ) (now : String) : M σ Unit :=
  withIDisposable
    (pyTryExceptFinally
      (do DocumentManagement.Initialize ops
          DocumentManagement.ReadDocument ops "SalesOrder1" "Account1"
          DocumentManagement.ReadDocuments ops
          let order ← DocumentManagement.QueryDocuments ops "Account1"
          DocumentManagement.ReplaceDocument ops order now)
      PyErr.isHTTPFailure
      (fun e => pyPrint ("\nrun_sample has caught an error. " ++ e.message))
      (pyPrint "\nrun_sample done"))

/-- Embedding of the `__main__` block: run the sample and catch every
`Exception` at the outermost scope, logging its arguments. -/
def pyMain {σ : Type} (ops : ClientOps σ) (now : String) : M σ Unit :=
  pyTryExcept (run_sample ops now) (fun _ => true)
    (fun e => pyPrint ("Top level Error: args:" ++ e.argsStr ++ ", message:N/A"))

/-- Whether a document is a dictionary whose `account_number` entry is the
string `acct` — the property the specification's filter query selects on. -/
def hasAccount (acct : String) (d : Val) : Bool :=
  match vGet d "account_number" with
  | some (.str a) => a == acct
  | _ => false

/-- Modelled from the spec: the external query engine, which returns the
records matching the account-number filter query.  A record matches the
issued query string iff its `account_number` entry is a string whose own
filter query equals the issued one (for well-formed queries this is exactly
equality with the queried account number, proved below). -/
def queryMatch (q : String) (d : Val) : Bool :=
  match vGet d "account_number" with
  | some (.str a) => queryFor a == q
  | _ => false

/-- The id entry of a document, when it is a dictionary with a string id. -/
def docId? (d : Val) : Option String :=
  match vGet d "id" with
  | some (.str i) => some i
  | _ => none

/-- The self link of a stored document, as used by read and replace. -/
def docLink? (d : Val) : Option String :=
  (docId? d).map (fun i => collection_link ++ "/docs/" ++ i)

/-- Modelled from the spec: the state of the mock document service — the
existing database ids, collection ids and stored documents. -/
structure MockState where
  dbs : List String
  colls : List String
  docs : List Val

/-- Modelled from the spec: a mock client over `MockState` implementing the
external interface contract of section 6 — create reports a 409 conflict
when the resource already exists, reads return the stored record or a 404,
the read-all operation yields every stored record once, and the query
operation returns the records matching the filter query. -/
def mockOps : ClientOps MockState where
  CreateDatabase s body :=
    match body with
    | .obj f =>
      match dictGet? f "id" with
      | some (.str i) =>
        if s.dbs.contains i then (s, .error 409)
        else ({ s with dbs := s.dbs ++ [i] }, .ok body)
      | _ => (s, .error 400)
    | _ => (s, .error 400)
  CreateCollection s _link defn :=
    match defn with
    | .obj f =>
      match dictGet? f "id" with
      | some (.str i) =>
        if s.colls.contains i then (s, .error 409)
        else ({ s with colls := s.colls ++ [i] }, .ok defn)
      | _ => (s, .error 400)
    | _ => (s, .error 400)
  CreateDocument s _link doc := ({ s with docs := s.docs ++ [doc] }, .ok doc)
  ReadDocument s link _opts :=
    match s.docs.filter (fun d => docLink? d == some link) with
    | d :: _ => (s, .ok d)
    | [] => (s, .error 404)
  ReadDocuments s _link _opts := (s, .ok s.docs)
  QueryDocuments s _link qdict :=
    match qdict with
    | .obj f =>
      match dictGet? f "query" with
      | some (.str q) => (s, .ok (s.docs.filter (fun d => queryMatch q d)))
      | _ => (s, .error 400)
    | _ => (s, .error 400)
  ReplaceDocument s link doc :=
    if s.docs.any (fun d => docLink? d == some link) then
      ({ s with docs := s.docs.map (fun d => if docLink? d == some link then doc else d) }, .ok doc)
    else (s, .error 404)
  requestCharge _ := "1.0"

/-- A configurable stateless test client: the outcomes of the database and
collection creation calls, of the read call and of the replace call are
given directly; the remaining operations succeed trivially. -/
def testClient (db coll rd : Except Nat Val) (rep : Except Nat Val) : ClientOps Unit where
  CreateDatabase s _ := (s, db)
  CreateCollection s _ _ := (s, coll)
  CreateDocument s _ d := (s, .ok d)
  ReadDocument s _ _ := (s, rd)
  ReadDocuments s _ _ := (s, .ok [])
  QueryDocuments s _ _ := (s, .ok [])
  ReplaceDocument s _ _ := (s, rep)
  requestCharge _ := "NA"

/-- A test client whose read-all operation yields exactly the given finite
sequence of records and whose replace operation echoes the submitted
record; every operation succeeds. -/
def yieldClient (docs : List Val) : ClientOps Unit where
  CreateDatabase s b := (s, .ok b)
  CreateCollection s _ d := (s, .ok d)
  CreateDocument s _ d := (s, .ok d)
  ReadDocument s _ _ := (s, .ok (.obj []))
  ReadDocuments s _ _ := (s, .ok docs)
  QueryDocuments s _ _ := (s, .ok [])
  ReplaceDocument s _ d := (s, .ok d)
  requestCharge _ := "2.5"

/-- A sales-order record seeded into the mock store for whole-run checks. -/
def seedDoc : Val :=
  .obj [("id", .str "SalesOrder1"),
        ("account_number", .str "Account1"),
        ("shipped_date", .str "1900-1-1 00:00:00")]

/-- Whether an event is anything other than a close of the client handle. -/
def evNotClose : Event → Bool
  | .close => false
  | _ => true

/-- Whether an event is anything other than a CreateDocument client call. -/
def evNotCreateDoc : Event → Bool
  | .call n _ => !(n == "CreateDocument")
  | _ => true

/-- The client-call operation names of a trace, in order. -/
def callNames (evs : List Event) : List String :=
  evs.filterMap (fun e =>
    match e with
    | .call n _ => some n
    | _ => none)

/-- Setting a key makes lookup of that key return the new value. -/
theorem dictGet?_dictSet_self (f : List (String × Val)) (k : String) (v : Val) :
    dictGet? (dictSet f k v) k = some v := by
  induction f with
  | nil => simp [dictSet, dictGet?]
  | cons kv rest ih =>
    obtain ⟨k0, v0⟩ := kv
    by_cases hk : k0 = k
    · simp [dictSet, dictGet?, hk]
    · simp [dictSet, dictGet?, hk, ih]

/-- Setting a key leaves lookup of every other key unchanged — the frame
property of the in-place dictionary update. -/
theorem dictGet?_dictSet_ne (f : List (String × Val)) (k k' : String) (v : Val)
    (hne : k' ≠ k) : dictGet? (dictSet f k v) k' = dictGet? f k' := by
  have h1 : ¬(k = k') := fun h => hne h.symm
  induction f with
  | nil =>
    simp only [dictSet, dictGet?]
    rw [if_neg h1]
  | cons kv rest ih =>
    obtain ⟨k0, v0⟩ := kv
    by_cases hk : k0 = k
    · have h2 : ¬(k0 = k') := by rw [hk]; exact h1
      simp only [dictSet]
      rw [if_pos hk]
      simp only [dictGet?]
      rw [if_neg h1, if_neg h2]
    · simp only [dictSet]
      rw [if_neg hk]
      by_cases hk' : k0 = k'
      · simp only [dictGet?]
        rw [if_pos hk', if_pos hk']
      · simp only [dictGet?]
        rw [if_neg hk', if_neg hk', ih]

/-- The filter query string determines the queried account number. -/
theorem queryFor_inj {a b : String} (h : queryFor a = queryFor b) : a = b := by
  unfold queryFor at h
  have hd := congrArg String.data h
  simp only [String.data_append] at hd
  exact String.ext (List.append_cancel_left (List.append_cancel_right hd))

/-- On a well-formed filter query, the mock engine's match predicate is
exactly equality of the record's account_number entry with the queried
account number. -/
theorem queryMatch_queryFor (acct : String) (d : Val) :
    queryMatch (queryFor acct) d = hasAccount acct d := by
  unfold queryMatch hasAccount
  cases hv : vGet d "account_number" with
  | none => rfl
  | some v =>
    cases v with
    | str a =>
      by_cases hab : a = acct
      · subst hab; simp
      · have h1 : (a == acct) = false := beq_eq_false_iff_ne.mpr hab
        have h2 : (queryFor a == queryFor acct) = false :=
          beq_eq_false_iff_ne.mpr (fun hq => hab (queryFor_inj hq))
        simp [h1, h2]
    | int n => rfl
    | dec m s => rfl
    | arr l => rfl
    | obj fs => rfl

/-- Running the id-printing loop prints exactly one line per yielded
document, in order, touching neither state nor result. -/
theorem printIds_run {σ : Type} (l : List Val) (s : σ) :
    DocumentManagement.printIds l s =
      ⟨s, l.map (fun d => Event.print ("Document Id: " ++ pyStrOptV (vGet d "id"))), .ok ()⟩ := by
  induction l with
  | nil => rfl
  | cons d rest ih =>
    show mBind (pyPrint _) (fun _ => DocumentManagement.printIds rest) s = _
    simp only [mBind, pyPrint, ih]
    rfl

/-- A statement emits only events satisfying P. -/
def EmitsOnly (P : Event → Prop) {σ α : Type} (x : M σ α) : Prop :=
  ∀ s e, e ∈ (x s).events → P e

theorem emitsOnly_mPure {P : Event → Prop} {σ α : Type} (a : α) :
    EmitsOnly P (mPure (σ := σ) a) := by
  intro s e he
  simp [mPure] at he

theorem emitsOnly_pyRaise {P : Event → Prop} {σ α : Type} (e0 : PyErr) :
    EmitsOnly P (pyRaise (σ := σ) (α := α) e0) := by
  intro s e he
  simp [pyRaise] at he

theorem emitsOnly_liftExc {P : Event → Prop} {σ α : Type} (x : Except PyErr α) :
    EmitsOnly P (liftExc (σ := σ) x) := by
  intro s e he
  simp [liftExc] at he

theorem emitsOnly_pyPrint {P : Event → Prop} {σ : Type} (m : String) (hP : P (.print m)) :
    EmitsOnly P (pyPrint (σ := σ) m) := by
  intro s e he
  simp only [pyPrint, List.mem_singleton] at he
  rw [he]; exact hP

theorem emitsOnly_getCharge {P : Event → Prop} {σ : Type} (ops : ClientOps σ) :
    EmitsOnly P (getCharge ops) := by
  intro s e he
  simp [getCharge] at he

theorem emitsOnly_invoke {P : Event → Prop} {σ β : Type} (name : String) (args : List Val)
    (f : σ → σ × Except Nat β) (hP : P (.call name args)) :
    EmitsOnly P (invoke name args f) := by
  intro s e he
  unfold invoke at he
  rcases hf : f s with ⟨s1, r⟩
  rw [hf] at he
  cases r with
  | ok v =>
    simp only [List.mem_singleton] at he
    rw [he]; exact hP
  | error code =>
    simp only [List.mem_singleton] at he
    rw [he]; exact hP

theorem emitsOnly_mBind {P : Event → Prop} {σ α β : Type} {x : M σ α} {f : α → M σ β}
    (hx : EmitsOnly P x) (hf : ∀ a, EmitsOnly P (f a)) : EmitsOnly P (mBind x f) := by
  intro s e he
  unfold mBind at he
  rcases hxs : x s with ⟨s1, ev1, r⟩
  rw [hxs] at he
  cases r with
  | ok a =>
    dsimp only at he
    rcases hfs : f a s1 with ⟨s2, ev2, r2⟩
    rw [hfs] at he
    dsimp only at he
    simp only [List.mem_append] at he
    rcases he with he | he
    · exact hx s e (by rw [hxs]; exact he)
    · exact hf a s1 e (by rw [hfs]; exact he)
  | error e0 =>
    dsimp only at he
    exact hx s e (by rw [hxs]; exact he)

theorem emitsOnly_bind {P : Event → Prop} {σ α β : Type} {x : M σ α} {f : α → M σ β}
    (hx : EmitsOnly P x) (hf : ∀ a, EmitsOnly P (f a)) : EmitsOnly P (Bind.bind x f) :=
  emitsOnly_mBind hx hf

theorem emitsOnly_pyTryExcept {P : Event → Prop} {σ α : Type} {x : M σ α}
    {catches : PyErr → Bool} {handler : PyErr → M σ α}
    (hx : EmitsOnly P x) (hh : ∀ e0, EmitsOnly P (handler e0)) :
    EmitsOnly P (pyTryExcept x catches handler) := by
  intro s e he
  unfold pyTryExcept at he
  rcases hxs : x s with ⟨s1, ev1, r⟩
  rw [hxs] at he
  cases r with
  | ok a =>
    dsimp only at he
    exact hx s e (by rw [hxs]; exact he)
  | error e0 =>
    dsimp only at he
    by_cases hc : catches e0
    · rw [if_pos hc] at he
      rcases hhs : handler e0 s1 with ⟨s2, ev2, r2⟩
      rw [hhs] at he
      dsimp only at he
      simp only [List.mem_append] at he
      rcases he with he | he
      · exact hx s e (by rw [hxs]; exact he)
      · exact hh e0 s1 e (by rw [hhs]; exact he)
    · rw [if_neg hc] at he
      exact hx s e (by rw [hxs]; exact he)

theorem emitsOnly_pyTryExceptFinally {P : Event → Prop} {σ α : Type} {x : M σ α}
    {catches : PyErr → Bool} {handler : PyErr → M σ α} {fin : M σ Unit}
    (hx : EmitsOnly P x) (hh : ∀ e0, EmitsOnly P (handler e0)) (hfin : EmitsOnly P fin) :
    EmitsOnly P (pyTryExceptFinally x catches handler fin) := by
  intro s e he
  unfold pyTryExceptFinally at he
  rcases hts : pyTryExcept x catches handler s with ⟨s1, ev1, r⟩
  rw [hts] at he
  dsimp only at he
  rcases hfs : fin s1 with ⟨s2, ev2, r2⟩
  rw [hfs] at he
  cases r2 with
  | ok u =>
    simp only [List.mem_append] at he
    rcases he with he | he
    · exact emitsOnly_pyTryExcept hx hh s e (by rw [hts]; exact he)
    · exact hfin s1 e (by rw [hfs]; exact he)
  | error e2 =>
    simp only [List.mem_append] at he
    rcases he with he | he
    · exact emitsOnly_pyTryExcept hx hh s e (by rw [hts]; exact he)
    · exact hfin s1 e (by rw [hfs]; exact he)

theorem emitsOnly_withIDisposable {P : Event → Prop} {σ α : Type} {body : M σ α}
    (hb : EmitsOnly P body) : EmitsOnly P (withIDisposable body) := by
  intro s e he
  unfold withIDisposable at he
  rcases hbs : body s with ⟨s1, ev1, r⟩
  rw [hbs] at he
  simp only [IDisposable_exit, mPure, List.append_nil] at he
  exact hb s e (by rw [hbs]; exact he)

theorem emitsOnly_ite {P : Event → Prop} {σ α : Type} (c : Prop) [Decidable c]
    {x y : M σ α} (hx : EmitsOnly P x) (hy : EmitsOnly P y) :
    EmitsOnly P (if c then x else y) := by
  by_cases h : c
  · rw [if_pos h]; exact hx
  · rw [if_neg h]; exact hy

theorem emitsOnly_printIds {P : Event → Prop} {σ : Type} (l : List Val)
    (hP : ∀ m, P (.print m)) : EmitsOnly P (DocumentManagement.printIds (σ := σ) l) := by
  intro s e he
  rw [printIds_run] at he
  simp only [List.mem_map] at he
  rcases he with ⟨d, _, hd⟩
  rw [← hd]; exact hP _

/-- The events run_sample can emit: console lines and client calls to the
five executed operations' methods — never a close, never a CreateDocument
call. -/
def SampleEv : Event → Prop
  | .print _ => True
  | .call n _ =>
    n = "CreateDatabase" ∨ n = "CreateCollection" ∨ n = "ReadDocument" ∨
    n = "ReadDocuments" ∨ n = "QueryDocuments" ∨ n = "ReplaceDocument"
  | .close => False

theorem initialize_emits {σ : Type} (ops : ClientOps σ) :
    EmitsOnly SampleEv (DocumentManagement.Initialize ops) := by
  unfold DocumentManagement.Initialize
  refine emitsOnly_bind (emitsOnly_pyPrint _ trivial) (fun _ => ?_)
  refine emitsOnly_bind ?_ (fun _ => ?_)
  · refine emitsOnly_pyTryExcept ?_ (fun e0 => ?_)
    · refine emitsOnly_bind (emitsOnly_invoke _ _ _ (Or.inl rfl)) (fun _ => ?_)
      exact emitsOnly_pyPrint _ trivial
    · exact emitsOnly_ite _ (emitsOnly_mPure _) (emitsOnly_pyRaise _)
  · refine emitsOnly_pyTryExcept ?_ (fun e0 => ?_)
    · refine emitsOnly_bind (emitsOnly_invoke _ _ _ (Or.inr (Or.inl rfl))) (fun _ => ?_)
      exact emitsOnly_pyPrint _ trivial
    · exact emitsOnly_ite _ (emitsOnly_pyPrint _ trivial) (emitsOnly_pyRaise _)

theorem readDocument_emits {σ : Type} (ops : ClientOps σ) (doc_id account_number : String) :
    EmitsOnly SampleEv (DocumentManagement.ReadDocument ops doc_id account_number) := by
  unfold DocumentManagement.ReadDocument
  refine emitsOnly_bind (emitsOnly_pyPrint _ trivial) (fun _ => ?_)
  refine emitsOnly_bind (emitsOnly_invoke _ _ _ (Or.inr (Or.inr (Or.inl rfl)))) (fun _ => ?_)
  refine emitsOnly_bind (emitsOnly_pyPrint _ trivial) (fun _ => ?_)
  refine emitsOnly_bind (emitsOnly_getCharge _) (fun _ => ?_)
  exact emitsOnly_pyPrint _ trivial

theorem readDocuments_emits {σ : Type} (ops : ClientOps σ) :
    EmitsOnly SampleEv (DocumentManagement.ReadDocuments ops) := by
  unfold DocumentManagement.ReadDocuments
  refine emitsOnly_bind (emitsOnly_pyPrint _ trivial) (fun _ => ?_)
  refine emitsOnly_bind (emitsOnly_invoke _ _ _ (Or.inr (Or.inr (Or.inr (Or.inl rfl)))))
    (fun docs => ?_)
  exact emitsOnly_printIds docs (fun m => trivial)

theorem queryDocuments_emits {σ : Type} (ops : ClientOps σ) (account_number : String) :
    EmitsOnly SampleEv (DocumentManagement.QueryDocuments ops account_number) := by
  unfold DocumentManagement.QueryDocuments
  refine emitsOnly_bind (emitsOnly_pyPrint _ trivial) (fun _ => ?_)
  refine emitsOnly_bind (emitsOnly_invoke _ _ _ (Or.inr (Or.inr (Or.inr (Or.inr (Or.inl rfl))))))
    (fun docs => ?_)
  refine emitsOnly_bind (emitsOnly_pyPrint _ trivial) (fun _ => ?_)
  cases docs with
  | nil => exact emitsOnly_pyRaise _
  | cons d rest => exact emitsOnly_mPure _

theorem replaceDocument_emits {σ : Type} (ops : ClientOps σ) (order : Val) (now : String) :
    EmitsOnly SampleEv (DocumentManagement.ReplaceDocument ops order now) := by
  unfold DocumentManagement.ReplaceDocument
  refine emitsOnly_bind (emitsOnly_pyPrint _ trivial) (fun _ => ?_)
  refine emitsOnly_bind (emitsOnly_liftExc _) (fun _ => ?_)
  refine emitsOnly_bind (emitsOnly_liftExc _) (fun _ => ?_)
  refine emitsOnly_bind (emitsOnly_liftExc _) (fun _ => ?_)
  refine emitsOnly_bind
    (emitsOnly_invoke _ _ _ (Or.inr (Or.inr (Or.inr (Or.inr (Or.inr rfl)))))) (fun _ => ?_)
  refine emitsOnly_bind (emitsOnly_getCharge _) (fun _ => ?_)
  refine emitsOnly_bind (emitsOnly_pyPrint _ trivial) (fun _ => ?_)
  refine emitsOnly_bind (emitsOnly_liftExc _) (fun _ => ?_)
  exact emitsOnly_pyPrint _ trivial

/-- Every event of a run_sample run is a print or a client call to one of
the five executed operations' client methods — in particular never a close
event and never a CreateDocument call. -/
theorem run_sample_emits {σ : Type} (ops : ClientOps σ) (now : String) :
    EmitsOnly SampleEv (run_sample ops now) := by
  unfold run_sample
  apply emitsOnly_withIDisposable
  refine emitsOnly_pyTryExceptFinally ?_ (fun e0 => ?_) ?_
  · refine emitsOnly_bind (initialize_emits ops) (fun _ => ?_)
    refine emitsOnly_bind (readDocument_emits ops _ _) (fun _ => ?_)
    refine emitsOnly_bind (readDocuments_emits ops) (fun _ => ?_)
    refine emitsOnly_bind (queryDocuments_emits ops _) (fun order => ?_)
    exact replaceDocument_emits ops order now
  · exact emitsOnly_pyPrint _ trivial
  · exact emitsOnly_pyPrint _ trivial

/-- C1: counterexample to the claim as stated — querying an account number
with no matching record (mock store with no documents) makes
QueryDocuments raise IndexError via `documentlist[0]`, instead of
returning an empty result. -/
theorem C1_empty_query_raises_index_error :
    (DocumentManagement.QueryDocuments mockOps "Account1" ⟨[], [], []⟩).result
      = Except.error PyErr.indexError := rfl

/-- C1 (amended): QueryDocuments issues the account-number filter query
and returns the first record whose account_number field equals the given
string; when no record matches it raises IndexError rather than returning
an empty result. -/
theorem C1_query_first_match_or_index_error (dbs colls : List String) (docs : List Val)
    (acct : String) :
    (DocumentManagement.QueryDocuments mockOps acct ⟨dbs, colls, docs⟩).result =
      match docs.filter (hasAccount acct) with
      | [] => Except.error PyErr.indexError
      | d :: _ => Except.ok d := by
  have hfe : docs.filter (fun d => queryMatch (queryFor acct) d) = docs.filter (hasAccount acct) :=
    List.filter_congr (fun d _ => queryMatch_queryFor acct d)
  have main : ∀ (l : List Val), docs.filter (fun d => queryMatch (queryFor acct) d) = l →
      (DocumentManagement.QueryDocuments mockOps acct ⟨dbs, colls, docs⟩).result =
        (match l with | [] => Except.error PyErr.indexError | d :: _ => Except.ok d) := by
    intro l hl
    simp only [DocumentManagement.QueryDocuments, bind_eq, mBind, pyPrint, invoke, mockOps,
      mPure, pyRaise, dictGet?, if_pos, queryFor] at *
    rw [hl]
    cases l with
    | nil => rfl
    | cons d rest => rfl
  rw [main (docs.filter (fun d => queryMatch (queryFor acct) d)) rfl, hfe]

/-- C2: the claim is right about the intent but the code is wrong —
CreateDocuments evaluates `datetime.min` (the module has no such
attribute), so for every client it raises AttributeError while building
the first sales order and never submits any document: the call-event
trace is empty. -/
theorem C2_create_documents_raises_attribute_error {σ : Type} (ops : ClientOps σ) (s : σ) :
    (DocumentManagement.CreateDocuments ops s).result =
      Except.error (PyErr.attributeError "module datetime has no attribute min") ∧
    callNames ((DocumentManagement.CreateDocuments ops s).events) = [] := ⟨rfl, rfl⟩

/-- C3: the claim (and the IDisposable docstring) promise the client is
closed on every exit path, but `__exit__` only rebinds a local variable:
its run is a pure no-op, and no run of run_sample — for any client
behaviour — ever emits a close event. -/
theorem C3_client_never_closed {σ : Type} (ops : ClientOps σ) (now : String) (s : σ) :
    IDisposable_exit s = (⟨s, [], Except.ok ()⟩ : RunRes σ Unit) ∧
    (run_sample ops now s).events.all evNotClose = true := by
  refine ⟨rfl, List.all_eq_true.mpr ?_⟩
  intro e he
  have hs := run_sample_emits ops now s e he
  cases e with
  | print m => rfl
  | call n args => rfl
  | close => exact (hs : False).elim

/-- C4: against the mock client, whose create operations report a 409
conflict exactly when the resource already exists, running Initialize
twice from a store with no databases and no collections raises nothing
and leaves exactly one database (the configured id) and exactly one
collection. -/
theorem C4_initialize_idempotent_under_409 (docs : List Val) :
    ((DocumentManagement.Initialize mockOps >>= fun _ => DocumentManagement.Initialize mockOps)
        ⟨[], [], docs⟩).result = Except.ok () ∧
    ((DocumentManagement.Initialize mockOps >>= fun _ => DocumentManagement.Initialize mockOps)
        ⟨[], [], docs⟩).state.dbs = [DATABASE_ID] ∧
    ((DocumentManagement.Initialize mockOps >>= fun _ => DocumentManagement.Initialize mockOps)
        ⟨[], [], docs⟩).state.colls = [COLLECTION_ID] := ⟨rfl, rfl, rfl⟩

/-- C5: counterexample to the claim as stated — a non-409 service error
(status 404) from the ReadDocument call propagates to the caller as the
original DocumentDBError, not re-raised as the generic HTTPFailure. -/
theorem C5_read_error_not_generic_failure :
    (DocumentManagement.ReadDocument
        (testClient (.ok dbBody) (.ok dbBody) (.error 404) (.ok dbBody))
        "SalesOrder1" "Account1" ()).result = Except.error (PyErr.documentDBError 404) ∧
    PyErr.isHTTPFailure (PyErr.documentDBError 404) = false := ⟨rfl, rfl⟩

/-- C5 (amended): a non-409 service error from either setup call is
re-raised as HTTPFailure carrying the status code unmodified, and a 409
from both setup calls is swallowed as success; a service error from a
non-setup call (ReadDocument) propagates unchanged in its original form,
still carrying the status code, and is not the generic failure. -/
theorem C5_setup_wraps_other_errors_propagate (code : Nat) (hc : code ≠ 409) (v : Val)
    (db coll rep : Except Nat Val) :
    (DocumentManagement.Initialize (testClient (.error code) (.ok v) (.ok v) rep) ()).result =
      Except.error (PyErr.httpFailure code "") ∧
    (DocumentManagement.Initialize (testClient (.ok v) (.error code) (.ok v) rep) ()).result =
      Except.error (PyErr.httpFailure code "") ∧
    (DocumentManagement.Initialize (testClient (.error 409) (.error 409) (.ok v) rep) ()).result =
      Except.ok () ∧
    (DocumentManagement.ReadDocument (testClient db coll (.error code) rep)
        "SalesOrder1" "Account1" ()).result = Except.error (PyErr.documentDBError code) ∧
    PyErr.isHTTPFailure (PyErr.documentDBError code) = false ∧
    PyErr.status_code (PyErr.httpFailure code "") = code ∧
    PyErr.status_code (PyErr.documentDBError code) = code := by
  have h : (code == 409) = false := beq_eq_false_iff_ne.mpr hc
  refine ⟨?_, ?_, ?_, ?_, rfl, rfl, rfl⟩
  · simp only [DocumentManagement.Initialize, bind_eq, mBind, pyPrint, invoke, testClient,
      pyTryExcept, pyRaise, mPure, PyErr.isDocumentDBError, PyErr.status_code, h,
      Bool.false_eq_true, if_false, ite_true]
  · simp only [DocumentManagement.Initialize, bind_eq, mBind, pyPrint, invoke, testClient,
      pyTryExcept, pyRaise, mPure, PyErr.isDocumentDBError, PyErr.status_code, h,
      Bool.false_eq_true, if_false, ite_true]
  · rfl
  · simp only [DocumentManagement.ReadDocument, bind_eq, mBind, pyPrint, invoke, testClient,
      getCharge]

/-- C5 witness: at status code 500 the setup error surfaces as
HTTPFailure 500 and the read error surfaces as DocumentDBError 500. -/
theorem C5_setup_wraps_witness :
    (DocumentManagement.Initialize
        (testClient (.error 500) (.ok dbBody) (.ok dbBody) (.ok dbBody)) ()).result =
      Except.error (PyErr.httpFailure 500 "") ∧
    (DocumentManagement.ReadDocument
        (testClient (.ok dbBody) (.ok dbBody) (.error 500) (.ok dbBody))
        "SalesOrder1" "Account1" ()).result = Except.error (PyErr.documentDBError 500) :=
  ⟨(C5_setup_wraps_other_errors_propagate 500 (by decide) dbBody
      (.ok dbBody) (.ok dbBody) (.ok dbBody)).1,
   (C5_setup_wraps_other_errors_propagate 500 (by decide) dbBody
      (.ok dbBody) (.ok dbBody) (.ok dbBody)).2.2.2.1⟩

/-- C6: counterexample to the claim as stated — when the current-time
string equals the record's original shipped_date, the in-place update
leaves the record literally unchanged, so the replaced record's
shipped_date does not differ from the input's original value; moreover
the function's own result is Python None (unit), not a record. -/
theorem C6_replace_returns_none_and_may_equal_original :
    pySetItemV (.obj [("id", Val.str "SalesOrder1"), ("account_number", Val.str "Account1"),
        ("shipped_date", Val.str "TIME0")]) "shipped_date" (Val.str "TIME0") =
      Except.ok (.obj [("id", Val.str "SalesOrder1"), ("account_number", Val.str "Account1"),
        ("shipped_date", Val.str "TIME0")]) ∧
    (DocumentManagement.ReplaceDocument (yieldClient [])
        (.obj [("id", Val.str "SalesOrder1"), ("account_number", Val.str "Account1"),
          ("shipped_date", Val.str "TIME0")]) "TIME0" ()).result = Except.ok () := ⟨rfl, rfl⟩

/-- C6 (amended): ReplaceDocument overwrites exactly the shipped_date
field with the current-time string — every other field, the id included,
is unchanged — and submits the whole mutated record as the replacement;
the new shipped_date differs from the original exactly when the
current-time string does, and the function itself returns no record (it
only prints the result's shipped_date and the request charge). -/
theorem C6_replace_updates_only_shipped_date (fields : List (String × Val)) (now oid : String)
    (hid : dictGet? (dictSet fields "shipped_date" (Val.str now)) "id" = some (.str oid)) :
    pySetItemV (.obj fields) "shipped_date" (.str now) =
      Except.ok (.obj (dictSet fields "shipped_date" (.str now))) ∧
    dictGet? (dictSet fields "shipped_date" (.str now)) "shipped_date" = some (.str now) ∧
    (∀ k, k ≠ "shipped_date" →
      dictGet? (dictSet fields "shipped_date" (.str now)) k = dictGet? fields k) ∧
    (∀ old, dictGet? fields "shipped_date" = some old → old ≠ .str now →
      dictGet? (dictSet fields "shipped_date" (.str now)) "shipped_date" ≠ some old) ∧
    Event.call "ReplaceDocument"
        [.str (collection_link ++ "/docs/" ++ oid), .obj (dictSet fields "shipped_date" (.str now))]
      ∈ (DocumentManagement.ReplaceDocument (yieldClient []) (.obj fields) now ()).events ∧
    (DocumentManagement.ReplaceDocument (yieldClient []) (.obj fields) now ()).result =
      Except.ok () := by
  refine ⟨rfl, dictGet?_dictSet_self fields _ _, ?_, ?_, ?_, ?_⟩
  · intro k hk
    exact dictGet?_dictSet_ne fields _ k _ hk
  · intro old hold hne
    rw [dictGet?_dictSet_self]
    intro hcon
    exact hne (Option.some.inj hcon).symm
  · simp only [DocumentManagement.ReplaceDocument, bind_eq, mBind, pyPrint, invoke, yieldClient,
      liftExc, pySetItemV, pyGetItemV, asPyStr, getCharge, hid, dictGet?_dictSet_self]
    simp [List.mem_cons]
  · simp only [DocumentManagement.ReplaceDocument, bind_eq, mBind, pyPrint, invoke, yieldClient,
      liftExc, pySetItemV, pyGetItemV, asPyStr, getCharge, hid, dictGet?_dictSet_self]

/-- C6 witness: on a concrete order with shipped_date OLD replaced at
time NEW, the shipped_date becomes NEW, the id field is untouched, and
the function's result is unit. -/
theorem C6_replace_witness :
    dictGet? (dictSet [("id", Val.str "SalesOrder1"), ("shipped_date", Val.str "OLD")]
        "shipped_date" (Val.str "NEW")) "shipped_date" = some (Val.str "NEW") ∧
    dictGet? (dictSet [("id", Val.str "SalesOrder1"), ("shipped_date", Val.str "OLD")]
        "shipped_date" (Val.str "NEW")) "id" =
      dictGet? [("id", Val.str "SalesOrder1"), ("shipped_date", Val.str "OLD")] "id" ∧
    (DocumentManagement.ReplaceDocument (yieldClient [])
        (.obj [("id", Val.str "SalesOrder1"), ("shipped_date", Val.str "OLD")]) "NEW" ()).result =
      Except.ok () := by
  have h := C6_replace_updates_only_shipped_date
    [("id", Val.str "SalesOrder1"), ("shipped_date", Val.str "OLD")] "NEW" "SalesOrder1" rfl
  exact ⟨h.2.1, h.2.2.1 "id" (by decide), h.2.2.2.2.2⟩

/-- C7: whatever the client behaviour and however run_sample ends, the
top-level handler catches every propagating exception, logs its
arguments, and the program finishes normally: the main block's result is
always success, and on an exceptional run exactly one log line is
appended. -/
theorem C7_top_level_catches_all {σ : Type} (ops : ClientOps σ) (now : String) (s : σ) :
    (pyMain ops now s).result = Except.ok () ∧
    (pyMain ops now s).events =
      (run_sample ops now s).events ++
        (match (run_sample ops now s).result with
         | .ok _ => []
         | .error e => [Event.print ("Top level Error: args:" ++ e.argsStr ++ ", message:N/A")]) := by
  unfold pyMain pyTryExcept
  rcases hr : run_sample ops now s with ⟨s1, ev, r⟩
  cases r with
  | ok a => exact ⟨rfl, by simp⟩
  | error e => exact ⟨rfl, by simp [pyPrint]⟩

/-- C8: for every finite sequence of records the client's read-all
operation yields under the maxItemCount-10 options, ReadDocuments prints
the id of each yielded record exactly once, in the order yielded — its
trace is the header, the single client call, and one print per record. -/
theorem C8_read_documents_prints_each_id_once (docs : List Val) :
    (DocumentManagement.ReadDocuments (yieldClient docs) ()).events =
      [Event.print "\n1.3 - Reading all documents in a collection\n",
       Event.call "ReadDocuments" [.str collection_link, readAllOptions]] ++
        docs.map (fun d => Event.print ("Document Id: " ++ pyStrOptV (vGet d "id"))) ∧
    (DocumentManagement.ReadDocuments (yieldClient docs) ()).result = Except.ok () := by
  simp only [DocumentManagement.ReadDocuments, bind_eq, mBind, pyPrint, invoke, yieldClient]
  rw [printIds_run]
  exact ⟨rfl, rfl⟩

/-- C9: run_sample never invokes CreateDocuments — no run, for any client
behaviour, contains a CreateDocument client call — and on a fully
successful run (mock client seeded with the sales order) the client-call
sequence is exactly the calls of Initialize, ReadDocument, ReadDocuments,
QueryDocuments and ReplaceDocument, in that order. -/
theorem C9_fixed_call_sequence_no_create :
    (∀ (σ : Type) (ops : ClientOps σ) (now : String) (s : σ),
        (run_sample ops now s).events.all evNotCreateDoc = true) ∧
    callNames ((run_sample mockOps "2005-7-15 00:00:00" ⟨[], [], [seedDoc]⟩).events) =
      ["CreateDatabase", "CreateCollection", "ReadDocument", "ReadDocuments",
       "QueryDocuments", "ReplaceDocument"] := by
  constructor
  · intro σ ops now s
    apply List.all_eq_true.mpr
    intro e he
    have hs := run_sample_emits ops now s e he
    cases e with
    | print m => rfl
    | call n args =>
      have hs' : n = "CreateDatabase" ∨ n = "CreateCollection" ∨ n = "ReadDocument" ∨
          n = "ReadDocuments" ∨ n = "QueryDocuments" ∨ n = "ReplaceDocument" := hs
      rcases hs' with h | h | h | h | h | h <;> subst h <;> rfl
    | close => rfl
  · rfl

/-- C10: ReplaceDocument mutates the caller's record in place — the
shipped_date entry is overwritten with the current time before the
replacement is submitted, the submitted payload is exactly the mutated
record, and this happens even when the service call itself fails, so the
pre-call shipped_date is no longer observable in the record. -/
theorem C10_replace_mutates_argument_in_place (fields : List (String × Val)) (now oid : String)
    (hid : dictGet? (dictSet fields "shipped_date" (Val.str now)) "id" = some (.str oid)) :
    (DocumentManagement.ReplaceDocument
        (testClient (.ok dbBody) (.ok dbBody) (.ok dbBody) (.error 404))
        (.obj fields) now ()).events =
      [Event.print "\n1.5 - Replacing a document using its Id",
       Event.call "ReplaceDocument"
         [.str (collection_link ++ "/docs/" ++ oid),
          .obj (dictSet fields "shipped_date" (.str now))]] ∧
    dictGet? (dictSet fields "shipped_date" (.str now)) "shipped_date" = some (.str now) ∧
    (DocumentManagement.ReplaceDocument
        (testClient (.ok dbBody) (.ok dbBody) (.ok dbBody) (.error 404))
        (.obj fields) now ()).result = Except.error (PyErr.documentDBError 404) := by
  refine ⟨?_, dictGet?_dictSet_self fields _ _, ?_⟩
  · simp only [DocumentManagement.ReplaceDocument, bind_eq, mBind, pyPrint, invoke, testClient,
      liftExc, pySetItemV, pyGetItemV, asPyStr, getCharge, hid]
    rfl
  · simp only [DocumentManagement.ReplaceDocument, bind_eq, mBind, pyPrint, invoke, testClient,
      liftExc, pySetItemV, pyGetItemV, asPyStr, getCharge, hid]

/-- C10 witness: on a concrete order, the failing-replace run's trace is
exactly the header print followed by the submission of the mutated
record, whose shipped_date is the new time. -/
theorem C10_replace_mutates_witness :
    (DocumentManagement.ReplaceDocument
        (testClient (.ok dbBody) (.ok dbBody) (.ok dbBody) (.error 404))
        (.obj [("id", Val.str "SalesOrder1"), ("shipped_date", Val.str "OLD2")]) "NEW2" ()).events =
      [Event.print "\n1.5 - Replacing a document using its Id",
       Event.call "ReplaceDocument"
         [.str (collection_link ++ "/docs/" ++ "SalesOrder1"),
          .obj (dictSet [("id", Val.str "SalesOrder1"), ("shipped_date", Val.str "OLD2")]
            "shipped_date" (.str "NEW2"))]] ∧
    dictGet? (dictSet [("id", Val.str "SalesOrder1"), ("shipped_date", Val.str "OLD2")]
        "shipped_date" (.str "NEW2")) "shipped_date" = some (Val.str "NEW2") := by
  have h := C10_replace_mutates_argument_in_place
    [("id", Val.str "SalesOrder1"), ("shipped_date", Val.str "OLD2")] "NEW2" "SalesOrder1" rfl
  exact ⟨h.1, h.2.1⟩
